import Mathlib

/-!
Verification development for the Amass `db` package (relational asset-graph
store, `src/db/postgres.go`, plus the Cayley variant and the migration
manager).  The store is shallowly embedded as a pure state machine: the
database tables become lists of rows, each Go method becomes a function from
the state to a result together with the successor state, and the Go
`(value, error)` multiple return becomes a pair of the value and an
`Option String` error.  Backend failures that in Go arise from the SQL
engine (failed connection, failed query, failed row creation) are injected
through boolean fault flags carried in the state, so that the error paths of
the source are expressible.  Timestamps (`created_at`) are omitted: no
observed behaviour depends on them.
-/

set_option maxRecDepth 4000

/-- JSON `content` payload of an asset row, one constructor per asset type
(`models.FQDN`, `models.IPAddress`, `models.Netblock`,
`models.AutonomousSystem`, `models.RIROrganization` in
`src/db/models/models.go`).  Addresses and CIDRs are kept as the strings the
operations store. -/
inductive Content where
  | fqdn (name tld : String)
  | ip (address version : String)
  | netblock (cidr version : String)
  | asn (number : Int)
  | rirorg (name rirId rir : String)
deriving Repr, DecidableEq, BEq

/-- The value of the SQL expression `content->>'name'`: only the `fqdn` and
`rirorg` payloads carry a JSON key `name`; on every other payload the
expression is NULL, here `none`. -/
def Content.nameKey : Content → Option String
  | .fqdn n _ => some n
  | .rirorg n _ _ => some n
  | _ => none

/-- The value of the SQL expression `content->>'address'`: only the `ip`
payload carries a JSON key `address`. -/
def Content.addrKey : Content → Option String
  | .ip a _ => some a
  | _ => none

/-- A row of the `assets` table (`models.Asset`). -/
structure Asset where
  id : Int
  type : String
  content : Content
deriving Repr, DecidableEq

/-- A row of the `relations` table (`models.Relation`). -/
structure Relation where
  id : Int
  type : String
  FromAssetID : Int
  ToAssetID : Int
deriving Repr, DecidableEq

/-- A row of the `execution_logs` table (`models.ExecutionLog`). -/
structure ExecutionLog where
  id : Int
  ExecutionID : Int
  AssetID : Int
deriving Repr, DecidableEq

/-- A row of the `executions` table (`models.Execution`). -/
structure Execution where
  id : Int
  Domains : String
deriving Repr, DecidableEq

/-- Fault-injection flags standing for the failure points of the SQL backend:
a failed `gorm.Open` (`connFail`), a failed read query (`queryFail`), and a
failed `db.Create` on the respective table.  `Go` decides these dynamically;
the model fixes them in the state so both the success and the failure paths
of the source are reachable. -/
structure Faults where
  connFail : Bool
  queryFail : Bool
  assetCreateFail : Bool
  relationCreateFail : Bool
  logCreateFail : Bool
  execCreateFail : Bool
deriving Repr, DecidableEq

def Faults.noFaults : Faults :=
  { connFail := false, queryFail := false, assetCreateFail := false
    relationCreateFail := false, logCreateFail := false, execCreateFail := false }

/-- The whole relational database state: the four tables of the schema in
`src/db/migrations`, the serial id counters, and the fault flags. -/
structure DBState where
  assets : List Asset
  relations : List Relation
  execLogs : List ExecutionLog
  executions : List Execution
  nextAssetId : Int
  nextRelId : Int
  nextLogId : Int
  nextExecId : Int
  faults : Faults
deriving Repr, DecidableEq

def emptyDB : DBState :=
  { assets := [], relations := [], execLogs := [], executions := []
    nextAssetId := 1, nextRelId := 1, nextLogId := 1, nextExecId := 1
    faults := Faults.noFaults }

/-- `db.InsertInfo` (src/unnamed/part_001); the `context.Context` field is
dropped because the Postgres code paths never consult it. -/
structure InsertInfo where
  Source : String
  EventID : Int
deriving Repr, DecidableEq

/-- `db.FQDN` (src/unnamed/part_001). -/
structure FQDN where
  Name : String
deriving Repr, DecidableEq

/-- `db.DNSRecord` (src/unnamed/part_001). -/
structure DNSRecord where
  Fqdn : String
  Target : String
deriving Repr, DecidableEq

/-- `db.HostRecord` (src/unnamed/part_001). -/
structure HostRecord where
  Fqdn : String
  Address : String
deriving Repr, DecidableEq

/-- `db.Service` (src/unnamed/part_001). -/
structure Service where
  Fqdn : String
  Target : String
  Service : String
deriving Repr, DecidableEq

/-- `db.Infrastructure` (src/unnamed/part_001). -/
structure Infrastructure where
  Asn : Int
  Description : String
  Address : String
  Cidr : String
deriving Repr, DecidableEq

/-- `db.NameAddrPair` (src/unnamed/part_001). -/
structure NameAddrPair where
  Name : String
  Addr : String
deriving Repr, DecidableEq

/-! ### Model of the external `golang.org/x/net/publicsuffix` functions

The library is an external dependency (not part of this repository).  For
hostnames whose public suffix is a single generic label (such as `com` or
`net`, the only ones the claims exercise) `PublicSuffix` returns the final
dot-separated label and `EffectiveTLDPlusOne` the final two labels, failing
when fewer than two labels are present.  The split is implemented by
structural recursion over the character list so that concrete instances
reduce inside the kernel. -/

def splitDots : List Char → List (List Char)
  | [] => [[]]
  | c :: rest =>
    let r := splitDots rest
    if c = '.' then [] :: r
    else
      match r with
      | g :: gs => (c :: g) :: gs
      | [] => [[c]]

def labels (s : String) : List String :=
  (splitDots s.toList).map (fun g => String.mk g)

def joinDots : List String → String
  | [] => ""
  | [x] => x
  | x :: xs => x ++ "." ++ joinDots xs

def publicSuffix (s : String) : String :=
  (labels s).getLastD s

def effectiveTLDPlusOne (s : String) : Option String :=
  let ls := labels s
  if 2 ≤ ls.length then some (joinDots (ls.drop (ls.length - 2))) else none

/-- `determineIpVersion` (postgres.go): classification of
`net.ParseIP` plus `To4`/`To16` for syntactically well-formed addresses —
dotted forms are 4-byte (v4), pure colon-hex forms 16-byte (v6), and
v4-mapped colon forms still satisfy `To4() != nil`. -/
def determineIpVersion (addr : String) : String :=
  if addr.toList.contains '.' then "v4"
  else if addr.toList.contains ':' then "v6"
  else ""

/-! ### The Postgres store operations (src/db/postgres.go)

Each definition mirrors one method.  A Go return `(v, err)` together with the
rows the call left behind becomes `v × Option String × DBState` (or
`Option String × DBState` when the method returns only `error`). -/

/-- `insertExecutionLog` (postgres.go:222): creates an `execution_logs` row;
on a failed create it returns the asset id together with the error (the Go
code returns `assetId, err`). -/
def insertExecutionLog (st : DBState) (assetId execId : Int) :
    Int × Option String × DBState :=
  if st.faults.logCreateFail then
    (assetId, some "Error creating execution log", st)
  else
    (assetId, none,
      { st with
        execLogs := st.execLogs ++ [⟨st.nextLogId, execId, assetId⟩]
        nextLogId := st.nextLogId + 1 })

/-- `InsertFQDN` (postgres.go:237): looks up the first asset (in id order)
whose `content->>'name'` equals the requested name and returns its id on a
hit; on a miss it computes the public suffix and the registrable domain of
the requested name, stores a new `fqdn` asset whose content name is that
registrable domain (not the requested name), and logs it under
`info.EventID`. -/
def InsertFQDN (st : DBState) (info : InsertInfo) (fqdn : FQDN) :
    Int × Option String × DBState :=
  if st.faults.connFail then (0, some "Could not get sql connection", st)
  else if st.faults.queryFail then
    (0, some "Failed to check if FDQN already exists", st)
  else
    match st.assets.find? (fun a => a.content.nameKey == some fqdn.Name) with
    | some a => (a.id, none, st)
    | none =>
      match effectiveTLDPlusOne fqdn.Name with
      | none =>
        (0, some ("InsertFQDN: Failed to obtain a valid domain name for " ++ fqdn.Name), st)
      | some domain =>
        let tld := publicSuffix fqdn.Name
        if st.faults.assetCreateFail then (0, some "Error creating FQDN asset", st)
        else
          let a : Asset := ⟨st.nextAssetId, "fqdn", .fqdn domain tld⟩
          insertExecutionLog
            { st with assets := st.assets ++ [a], nextAssetId := st.nextAssetId + 1 }
            a.id info.EventID

/-- `insertRelation` (postgres.go:280): creates a `relations` row. -/
def insertRelation (st : DBState) (from_id to_id : Int) (relation : String) :
    Option String × DBState :=
  if st.faults.connFail then (some "could not get sql connection", st)
  else if st.faults.relationCreateFail then (some "Error creating relation", st)
  else
    (none,
      { st with
        relations := st.relations ++ [⟨st.nextRelId, relation, from_id, to_id⟩]
        nextRelId := st.nextRelId + 1 })

/-- `insertFQDNRelation` (postgres.go:301): upserts the target, then the
source, then creates the edge.  The Go source assigns the error returned by
`insertRelation` to `err` but then executes `return nil` unconditionally, so
a failed edge creation is not reported. -/
def insertFQDNRelation (st : DBState) (info : InsertInfo)
    (fqdn target relation : String) : Option String × DBState :=
  let (target_id, err, st) := InsertFQDN st info ⟨target⟩
  if err.isSome then
    (some ("InsertFQDN: Failed to insert target FQDN " ++ target), st)
  else
    let (fqdn_id, err, st) := InsertFQDN st info ⟨fqdn⟩
    if err.isSome then
      (some ("InsertFQDN: Failed to insert FQDN " ++ fqdn), st)
    else
      let (_, st) := insertRelation st fqdn_id target_id relation
      (none, st)

def InsertCNAME (st : DBState) (info : InsertInfo) (dns : DNSRecord) :
    Option String × DBState :=
  insertFQDNRelation st info dns.Fqdn dns.Target "cname_record"

def InsertPTR (st : DBState) (info : InsertInfo) (dns : DNSRecord) :
    Option String × DBState :=
  insertFQDNRelation st info dns.Fqdn dns.Target "ptr_record"

/-- `InsertSRV` (postgres.go:327): the first `insertFQDNRelation` error is
checked and returned; the second call is returned directly. -/
def InsertSRV (st : DBState) (info : InsertInfo) (srv : Service) :
    Option String × DBState :=
  let (err, st) := insertFQDNRelation st info srv.Service srv.Fqdn "service"
  if err.isSome then (err, st)
  else insertFQDNRelation st info srv.Service srv.Target "srv_record"

def InsertNS (st : DBState) (info : InsertInfo) (dns : DNSRecord) :
    Option String × DBState :=
  insertFQDNRelation st info dns.Fqdn dns.Target "ns_record"

def InsertMX (st : DBState) (info : InsertInfo) (dns : DNSRecord) :
    Option String × DBState :=
  insertFQDNRelation st info dns.Fqdn dns.Target "mx_record"

/-- `insertIPAddr` (postgres.go:354): always creates a fresh `ip` asset —
there is no lookup of an existing asset with the same address. -/
def insertIPAddr (st : DBState) (info : InsertInfo) (addr version : String) :
    Int × Option String × DBState :=
  if st.faults.connFail then (0, some "could not get sql connection", st)
  else
    let version := if version = "" then determineIpVersion addr else version
    if st.faults.assetCreateFail then (0, some "Error creating IP asset", st)
    else
      let a : Asset := ⟨st.nextAssetId, "ip", .ip addr version⟩
      insertExecutionLog
        { st with assets := st.assets ++ [a], nextAssetId := st.nextAssetId + 1 }
        a.id info.EventID

/-- `insertNetblock` (postgres.go:387): always creates a fresh `netblock`
asset, after `net.ParseCIDR` validation (modelled as requiring a slash; the
claims do not depend on the precise CIDR grammar or canonicalization). -/
def insertNetblock (st : DBState) (info : InsertInfo) (cidr version : String) :
    Int × Option String × DBState :=
  if st.faults.connFail then (0, some "could not get sql connection", st)
  else if ¬ cidr.toList.contains '/' then (0, some "Error parsing CIDR", st)
  else
    let version := if version = "" then determineIpVersion cidr else version
    if st.faults.assetCreateFail then (0, some "Error creating netblock asset", st)
    else
      let a : Asset := ⟨st.nextAssetId, "netblock", .netblock cidr version⟩
      insertExecutionLog
        { st with assets := st.assets ++ [a], nextAssetId := st.nextAssetId + 1 }
        a.id info.EventID

/-- `insertAS` (postgres.go:425): always creates a fresh `as` asset. -/
def insertAS (st : DBState) (info : InsertInfo) (asnum : Int) :
    Int × Option String × DBState :=
  if st.faults.connFail then (0, some "could not get sql connection", st)
  else if st.faults.assetCreateFail then (0, some "Error creating AS asset", st)
  else
    let a : Asset := ⟨st.nextAssetId, "as", .asn asnum⟩
    insertExecutionLog
      { st with assets := st.assets ++ [a], nextAssetId := st.nextAssetId + 1 }
      a.id info.EventID

/-- `insertRIROrg` (postgres.go:452): always creates a fresh `rirorg` asset
whose content is the given name together with the literals `unknown` for
both `rir_id` and `rir`. -/
def insertRIROrg (st : DBState) (info : InsertInfo) (rir : String) :
    Int × Option String × DBState :=
  if st.faults.connFail then (0, some "could not get sql connection", st)
  else if st.faults.assetCreateFail then (0, some "Error creating RIROrg asset", st)
  else
    let a : Asset := ⟨st.nextAssetId, "rirorg", .rirorg rir "unknown" "unknown"⟩
    insertExecutionLog
      { st with assets := st.assets ++ [a], nextAssetId := st.nextAssetId + 1 }
      a.id info.EventID

/-- `InsertInfrastructure` (postgres.go:481): four upserts and three edges,
every step's error checked and propagated. -/
def InsertInfrastructure (st : DBState) (info : InsertInfo)
    (infra : Infrastructure) : Option String × DBState :=
  let (ip_id, err, st) := insertIPAddr st info infra.Address ""
  if err.isSome then (some "Error inserting IP address", st)
  else
    let (netblock_id, err, st) := insertNetblock st info infra.Cidr ""
    if err.isSome then (some "Error inserting netblock", st)
    else
      let (as_id, err, st) := insertAS st info infra.Asn
      if err.isSome then (some "Error inserting AS", st)
      else
        let (rirorg_id, err, st) := insertRIROrg st info infra.Description
        if err.isSome then (some "Error inserting RIR Org", st)
        else
          let (err, st) := insertRelation st netblock_id ip_id "contains"
          if err.isSome then (some "Error inserting relation", st)
          else
            let (err, st) := insertRelation st as_id netblock_id "announces"
            if err.isSome then (some "Error inserting relation", st)
            else
              let (err, st) := insertRelation st as_id rirorg_id "managed_by"
              if err.isSome then (some "Error inserting relation", st)
              else (none, st)

/-- `InsertA` (postgres.go:520): the two upsert errors are checked, but the
error of the final `insertRelation` is assigned and then dropped by
`return nil`. -/
def InsertA (st : DBState) (info : InsertInfo) (record : HostRecord) :
    Option String × DBState :=
  let (fqdn_id, err, st) := InsertFQDN st info ⟨record.Fqdn⟩
  if err.isSome then (some "Error inserting FQDN", st)
  else
    let (ip_id, err, st) := insertIPAddr st info record.Address "v4"
    if err.isSome then (some "Error inserting IP address", st)
    else
      let (_, st) := insertRelation st fqdn_id ip_id "a_record"
      (none, st)

/-- `InsertAAAA` (postgres.go:537): same shape as `InsertA` with version v6
and edge type `aaaa_record`; the final relation error is dropped. -/
def InsertAAAA (st : DBState) (info : InsertInfo) (record : HostRecord) :
    Option String × DBState :=
  let (fqdn_id, err, st) := InsertFQDN st info ⟨record.Fqdn⟩
  if err.isSome then (some "Error inserting FQDN", st)
  else
    let (ip_id, err, st) := insertIPAddr st info record.Address "v6"
    if err.isSome then (some "Error inserting IP address", st)
    else
      let (_, st) := insertRelation st fqdn_id ip_id "aaaa_record"
      (none, st)

/-- `IsCNAMENode` (postgres.go:554): counts join rows of assets whose
`content->>'name'` equals the argument with relations leaving them whose
type is the literal `"cname"`, and answers whether the count is positive. -/
def IsCNAMENode (st : DBState) (fqdn : String) : Bool × Option String :=
  if st.faults.connFail then (false, some "Could not get sql connection")
  else if st.faults.queryFail then
    (false, some "Could not get count of CNAME relations")
  else
    let count :=
      ((st.assets.filter (fun a => a.content.nameKey == some fqdn)).map
        (fun a =>
          (st.relations.filter
            (fun r => r.FromAssetID == a.id && r.type == "cname")).length)).sum
    (decide (0 < count), none)

/-- `EventFQDNs` (postgres.go:582): one name per join row of an `fqdn` asset
with an `execution_logs` row of the given execution; on a failed connection
or a failed query the function returns nil — its signature carries no
error. -/
def EventFQDNs (st : DBState) (execID : Int) : List String :=
  if st.faults.connFail then []
  else if st.faults.queryFail then []
  else
    ((st.assets.filter (fun a => a.type == "fqdn")).map (fun a =>
      (st.execLogs.filter
        (fun l => l.AssetID == a.id && l.ExecutionID == execID)).map
        (fun _ => a.content.nameKey.getD ""))).flatten

/-- `NamesToAddrs` (postgres.go:603): one pair per join row of an `fqdn`
asset, a relation of type `a_record` or `aaaa_record` leaving it, and an
`ip` asset it points to.  Neither `execID` nor `names` occurs in the query:
the two parameters are accepted and ignored by the source. -/
def NamesToAddrs (st : DBState) (execID : Int) (names : List String) :
    List NameAddrPair × Option String :=
  if st.faults.connFail then ([], some "Could not get sql connection")
  else if st.faults.queryFail then ([], some "Could not get name-address relations")
  else
    (((st.relations.filter
        (fun r => r.type == "a_record" || r.type == "aaaa_record")).map
      (fun r =>
        ((st.assets.filter (fun a => a.id == r.FromAssetID && a.type == "fqdn")).map
          (fun a =>
            (st.assets.filter (fun b => b.id == r.ToAssetID && b.type == "ip")).map
              (fun b =>
                (⟨a.content.nameKey.getD "", b.content.addrKey.getD ""⟩ :
                  NameAddrPair)))).flatten)).flatten, none)

/-- `InsertExecution` (postgres.go:204): creates an `executions` row whose
`Domains` column joins the argument list with a comma. -/
def InsertExecution (st : DBState) (domains : List String) :
    Int × Option String × DBState :=
  if st.faults.connFail then (0, some "Error connecting to database", st)
  else if st.faults.execCreateFail then (0, some "Error creating execution", st)
  else
    (st.nextExecId, none,
      { st with
        executions := st.executions ++ [⟨st.nextExecId, String.intercalate ", " domains⟩]
        nextExecId := st.nextExecId + 1 })

/-! ### The Cayley (native graph) variant (src/unnamed/part_002) -/

/-- Modelled from the spec: the external graph engine `netmap.Graph` is not
part of this repository; spec section 4.3 describes the native backend as
delegating each operation to it, and section 4.1 describes the upsert as
find-or-create on the node identity.  Only the fqdn name set is modelled —
the decisive facts about the Cayley variant (its returned ids) come from the
source in src/unnamed/part_002, not from this model. -/
structure GraphState where
  fqdns : List String
deriving Repr, DecidableEq

/-- Modelled from the spec: `netmap.Graph.UpsertFQDN`, find-or-create on the
name, reporting no error while the engine is reachable. -/
def graphUpsertFQDN (g : GraphState) (name : String) : GraphState × Option String :=
  (if g.fqdns.contains name then g else { g with fqdns := g.fqdns ++ [name] }, none)

/-- `Cayley.InsertFQDN` (src/unnamed/part_002): discards the node returned
by the engine and returns the constant id 0 together with the upsert
error. -/
def cayleyInsertFQDN (g : GraphState) (info : InsertInfo) (fqdn : FQDN) :
    Int × Option String × GraphState :=
  let (g, err) := graphUpsertFQDN g fqdn.Name
  (0, err, g)

/-- `Cayley.InsertExecution` (src/unnamed/part_002): returns `0, nil`
unconditionally, ignoring its argument. -/
def cayleyInsertExecution (sources : List String) : Int × Option String :=
  (0, none)

/-! ### The schema migration manager (postgres.go:35,149,180)

The migration engine itself (`rubenv/sql-migrate`) is an external
dependency.  Modelled from the spec, section 4.4: an ordered sequence of
named migrations, an applied set tracked in a dedicated table, pending
computed by diffing the sequence against the applied records, and the Up
executor applying all pending migrations in order and recording them. -/

structure MigState where
  available : List String
  applied : List String
  connFail : Bool
deriving Repr, DecidableEq

/-- Modelled from the spec: the pending migrations are the declared sequence
minus the applied records, in declaration order
(`migrate.PlanMigration(..., migrate.Up, math.MaxInt32)`). -/
def pendingMigrations (m : MigState) : List String :=
  m.available.filter (fun x => decide (x ∉ m.applied))

/-- Modelled from the spec: `migrate.Exec`/`migrate.ExecMax(..., 0)` with
direction Up applies every pending migration in order, records each one,
and returns how many were applied. -/
def migrateExecUp (m : MigState) : Nat × MigState :=
  let p := pendingMigrations m
  (p.length, { m with applied := m.applied ++ p })

/-- `getAppliedMigrationsCount` (postgres.go:35): the number of applied
migration records, or an error when the backend is unreachable. -/
def getAppliedMigrationsCount (m : MigState) : Nat × Option String :=
  if m.connFail then (0, some "could not get applied migrations amount")
  else (m.applied.length, none)

/-- `RunInitMigration` (postgres.go:149): first-run guard.  The Go method
returns only `error` and prints the applied count; the model returns that
count alongside, as the observable report. -/
def RunInitMigration (m : MigState) : Nat × Option String × MigState :=
  let (cnt, err) := getAppliedMigrationsCount m
  if err.isSome then (0, some "could not run init migration", m)
  else if 1 ≤ cnt then (0, none, m)
  else if m.connFail then (0, some "could not run init migration", m)
  else
    let (n, m) := migrateExecUp m
    (n, none, m)

/-- `RunMigrations` (postgres.go:180): applies all pending migrations
regardless of prior state; the applied count is printed by the source and
returned by the model. -/
def RunMigrations (m : MigState) : Nat × Option String × MigState :=
  if m.connFail then (0, some "could not run migrations", m)
  else
    let (n, m) := migrateExecUp m
    (n, none, m)

/-! ### Concrete states used by the claim theorems -/

def info0 : InsertInfo := ⟨"test-source", 1⟩

/-- The store after `InsertCNAME(fqdn = www.example.com,
target = example.com)` on an empty store. -/
def cnameState : DBState :=
  (InsertCNAME emptyDB info0 ⟨"www.example.com", "example.com"⟩).2

/-- The store after one `insertIPAddr` of 93.184.216.34 on an empty store. -/
def ipOnceState : DBState :=
  (insertIPAddr emptyDB info0 "93.184.216.34" "v4").2.2

/-- The store after one `InsertFQDN` of www.example.com on an empty store. -/
def fqdnOnceState : DBState :=
  (InsertFQDN emptyDB info0 ⟨"www.example.com"⟩).2.2

/-- The store after `InsertA(example.com, 93.184.216.34)` and
`InsertA(other.net, 10.0.0.1)` on an empty store. -/
def twoARecordsState : DBState :=
  (InsertA (InsertA emptyDB info0 ⟨"example.com", "93.184.216.34"⟩).2
    info0 ⟨"other.net", "10.0.0.1"⟩).2

/-- A store whose backend fails exactly at creating relation rows. -/
def relFailDB : DBState :=
  { emptyDB with faults := { Faults.noFaults with relationCreateFail := true } }

/-- The state `insertFQDNRelation` reaches inside
`InsertCNAME relFailDB info0 ⟨www.example.com, example.com⟩` just before its
`insertRelation` step: both constituent upserts done, relation write about
to fail. -/
def relFailMidState : DBState :=
  (InsertFQDN (InsertFQDN relFailDB info0 ⟨"example.com"⟩).2.2
    info0 ⟨"www.example.com"⟩).2.2

/-- A store whose backend fails at opening the connection. -/
def connFailDB : DBState :=
  { emptyDB with faults := { Faults.noFaults with connFail := true } }

/-- Migration state used to witness the first-run guard: one of two
migrations already applied. -/
def migStateA : MigState := ⟨["m1", "m2"], ["m1"], false⟩

/-- Migration state used to witness migration idempotence: nothing applied
yet. -/
def migStateB : MigState := ⟨["m1", "m2"], [], false⟩

/-! ### Claim theorems -/

/-- C1: the upserts are not idempotent.  `insertIPAddr` performs no lookup
at all, so a second insert of the same address returns a fresh id (2, not 1)
and leaves two identical `ip` rows; `InsertFQDN` looks the input name up but
stores the registrable domain as the content name, so a second
`InsertFQDN` of `www.example.com` misses the lookup and creates a second
row, contradicting its own doc comment (`Create FQDN if it does not exist,
otherwise return the ID of the existing FQDN`). -/
theorem upsert_creates_duplicate_rows :
    (insertIPAddr emptyDB info0 "93.184.216.34" "v4").1 = 1 ∧
    (insertIPAddr ipOnceState info0 "93.184.216.34" "v4").1 = 2 ∧
    ((insertIPAddr ipOnceState info0 "93.184.216.34" "v4").2.2.assets.filter
      (fun a => a.type == "ip" && a.content == Content.ip "93.184.216.34" "v4")).length = 2 ∧
    (InsertFQDN emptyDB info0 ⟨"www.example.com"⟩).1 = 1 ∧
    (InsertFQDN fqdnOnceState info0 ⟨"www.example.com"⟩).1 = 2 ∧
    ((InsertFQDN fqdnOnceState info0 ⟨"www.example.com"⟩).2.2.assets.filter
      (fun a => a.type == "fqdn")).length = 2 := by
  decide

/-- C2 counterexample: after `InsertCNAME(www.example.com, example.com)` on
an empty store the call succeeds, yet no asset whose content name is
`www.example.com` exists — `InsertFQDN` stored the registrable domain
`example.com` for both inputs — refuting the claim that one of the two
created nodes is named `www.example.com`. -/
theorem insertCNAME_creates_no_node_named_source :
    (InsertCNAME emptyDB info0 ⟨"www.example.com", "example.com"⟩).1 = none ∧
    ((InsertCNAME emptyDB info0 ⟨"www.example.com", "example.com"⟩).2.assets.filter
      (fun a => a.content.nameKey == some "www.example.com")) = [] := by
  decide

/-- C2 (amended): `InsertCNAME(www.example.com, example.com)` on an empty
store creates exactly two `fqdn` nodes, both with content
`{name: example.com, tld: com}`, and exactly one `cname_record` edge from
the node created for the source input (id 2) to the node created for the
target input (id 1). -/
theorem insertCNAME_decomposition :
    InsertCNAME emptyDB info0 ⟨"www.example.com", "example.com"⟩ = (none, cnameState) ∧
    (cnameState.assets.filter (fun a => a.type == "fqdn")).length = 2 ∧
    (cnameState.assets.filter
      (fun a => a.content == Content.fqdn "example.com" "com")).length = 2 ∧
    cnameState.relations = [⟨1, "cname_record", 2, 1⟩] := by
  decide

/-- C3 counterexample: with A records inserted for `example.com` and for the
unrelated `other.net`, `NamesToAddrs(1, [example.com])` also returns the
pair for `other.net`, a name not among the requested names. -/
theorem namesToAddrs_returns_unrelated_names :
    NamesToAddrs twoARecordsState 1 ["example.com"] =
      ([⟨"example.com", "93.184.216.34"⟩, ⟨"other.net", "10.0.0.1"⟩], none) ∧
    (⟨"other.net", "10.0.0.1"⟩ : NameAddrPair) ∈
      (NamesToAddrs twoARecordsState 1 ["example.com"]).1 ∧
    "other.net" ∉ ["example.com"] := by
  decide

/-- C3 (amended): `NamesToAddrs` ignores both the execution id and the
names argument — the result is identical for any values of the two — and
after `insertA(example.com, 93.184.216.34)` it does contain the pair
`(example.com, 93.184.216.34)`. -/
theorem namesToAddrs_unrestricted :
    (∀ (st : DBState) (e1 e2 : Int) (ns1 ns2 : List String),
      NamesToAddrs st e1 ns1 = NamesToAddrs st e2 ns2) ∧
    (⟨"example.com", "93.184.216.34"⟩ : NameAddrPair) ∈
      (NamesToAddrs twoARecordsState 1 ["example.com"]).1 :=
  ⟨fun _ _ _ _ _ => rfl, by decide⟩

/-- C4: after `InsertCNAME(www.example.com, example.com)` the store holds a
node (content name `example.com`) with an outgoing `cname_record` edge, yet
`IsCNAMENode` answers false for it (and for every other name): the query
filters on relation type `cname` while every CNAME edge is written with
type `cname_record`. -/
theorem isCNAMENode_misses_cname_record_edges :
    (cnameState.relations.filter (fun r => r.type == "cname_record")).length = 1 ∧
    (cnameState.assets.any (fun a =>
      (a.content.nameKey == some "example.com") &&
      cnameState.relations.any
        (fun r => r.FromAssetID == a.id && r.type == "cname_record"))) = true ∧
    IsCNAMENode cnameState "example.com" = (false, none) ∧
    IsCNAMENode cnameState "www.example.com" = (false, none) := by
  decide

/-- C5: when the backend write of the relation row fails, the constituent
`insertRelation` step of `InsertCNAME` returns an error, yet `InsertCNAME`
returns no error and leaves the store without the edge — the failure is
silently dropped by `insertFQDNRelation`. -/
theorem insertCNAME_swallows_relation_error :
    insertRelation relFailMidState 2 1 "cname_record" =
      (some "Error creating relation", relFailMidState) ∧
    (InsertCNAME relFailDB info0 ⟨"www.example.com", "example.com"⟩).1 = none ∧
    (InsertCNAME relFailDB info0 ⟨"www.example.com", "example.com"⟩).2.relations = [] := by
  decide

/-- C6 counterexample: the first `InsertFQDN` on the two backends succeeds
on both, but the relational backend returns node id 1 while the Cayley
backend returns node id 0 — the upsert results differ, so the backends are
not observationally equivalent. -/
theorem backend_upsert_ids_differ :
    (InsertFQDN emptyDB info0 ⟨"example.com"⟩).1 = 1 ∧
    (InsertFQDN emptyDB info0 ⟨"example.com"⟩).2.1 = none ∧
    (cayleyInsertFQDN ⟨[]⟩ info0 ⟨"example.com"⟩).1 = 0 ∧
    (cayleyInsertFQDN ⟨[]⟩ info0 ⟨"example.com"⟩).2.1 = none ∧
    (1 : Int) ≠ 0 := by
  decide

/-- C6 (amended): the Cayley variant returns node id 0 for every
`InsertFQDN` and id 0 for every `InsertExecution`, whereas the Postgres
variant returns the id of the found-or-created row (1 on the first insert
into an empty store), so the two backends are not observationally
equivalent on upsert results. -/
theorem cayley_upsert_ids_constant_zero :
    (∀ (g : GraphState) (info : InsertInfo) (f : FQDN),
      (cayleyInsertFQDN g info f).1 = 0) ∧
    (∀ (ds : List String), (cayleyInsertExecution ds).1 = 0) ∧
    (InsertFQDN emptyDB info0 ⟨"example.com"⟩).1 = 1 :=
  ⟨fun _ _ _ => rfl, fun _ => rfl, by decide⟩

/-- After applying all pending migrations, nothing is pending any more. -/
theorem pendingMigrations_after_apply (m : MigState) :
    pendingMigrations { m with applied := m.applied ++ pendingMigrations m } = [] := by
  unfold pendingMigrations
  rw [List.filter_eq_nil_iff]
  intro a ha
  simp only [decide_eq_true_eq, Decidable.not_not, List.mem_append]
  by_cases hmem : a ∈ m.applied
  · exact Or.inl hmem
  · exact Or.inr (List.mem_filter.mpr ⟨ha, by simp [hmem]⟩)

/-- C7: `RunInitMigration` is a first-run guard — when at least one
migration record exists it changes nothing, reports zero applied and no
error; when none exists it applies exactly the pending migrations,
recording them all. -/
theorem runInitMigration_first_run_guard (m : MigState) (h : m.connFail = false) :
    (1 ≤ m.applied.length → RunInitMigration m = (0, none, m)) ∧
    (m.applied.length = 0 →
      RunInitMigration m =
        ((pendingMigrations m).length, none,
          { m with applied := m.applied ++ pendingMigrations m })) := by
  constructor
  · intro h1
    simp [RunInitMigration, getAppliedMigrationsCount, h, h1]
  · intro h0
    simp [RunInitMigration, getAppliedMigrationsCount, migrateExecUp, h, h0]

/-- C7 witness: with one of two migrations already applied, the guard fires
and nothing changes. -/
theorem runInitMigration_first_run_guard_witness :
    RunInitMigration migStateA = (0, none, migStateA) :=
  (runInitMigration_first_run_guard migStateA rfl).1 (by decide)

/-- C8: `RunMigrations` twice in a row — the first run succeeds, and the
second run applies zero migrations, reports zero applied, returns no error
and leaves the applied state unchanged. -/
theorem runMigrations_idempotent (m : MigState) (h : m.connFail = false) :
    (RunMigrations m).2.1 = none ∧
    RunMigrations (RunMigrations m).2.2 = (0, none, (RunMigrations m).2.2) := by
  have hpend := pendingMigrations_after_apply m
  rw [h] at hpend
  constructor
  · simp [RunMigrations, migrateExecUp, h]
  · simp [RunMigrations, migrateExecUp, h, hpend]

/-- C8 witness: both migrations pending, run twice. -/
theorem runMigrations_idempotent_witness :
    (RunMigrations migStateB).2.1 = none ∧
    RunMigrations (RunMigrations migStateB).2.2 =
      (0, none, (RunMigrations migStateB).2.2) :=
  runMigrations_idempotent migStateB rfl

/-- C9: on a working backend, `insertRIROrg` stores exactly one new
`rirorg` row whose content is the given name with `rir_id` and `rir` both
the literal `unknown`, logs it, and returns its id — for every input
string, only the name field of the payload varies. -/
theorem insertRIROrg_always_unknown (st : DBState) (info : InsertInfo)
    (rir : String) (h : st.faults = Faults.noFaults) :
    insertRIROrg st info rir =
      (st.nextAssetId, none,
        { st with
          assets := st.assets ++
            [⟨st.nextAssetId, "rirorg", .rirorg rir "unknown" "unknown"⟩]
          nextAssetId := st.nextAssetId + 1
          execLogs := st.execLogs ++ [⟨st.nextLogId, info.EventID, st.nextAssetId⟩]
          nextLogId := st.nextLogId + 1 }) := by
  simp [insertRIROrg, insertExecutionLog, h, Faults.noFaults]

/-- C9 witness: inserting the rirorg name Acme into the empty store. -/
theorem insertRIROrg_always_unknown_witness :
    insertRIROrg emptyDB info0 "Acme" =
      (1, none,
        { emptyDB with
          assets := [⟨1, "rirorg", .rirorg "Acme" "unknown" "unknown"⟩]
          nextAssetId := 2
          execLogs := [⟨1, 1, 1⟩]
          nextLogId := 2 }) :=
  insertRIROrg_always_unknown emptyDB info0 "Acme" rfl

/-- C10: `EventFQDNs` has no error result in its signature, and on a failed
connection or a failed query it returns the empty list — the same value it
returns on a working backend holding no logged fqdn nodes for the
execution, so the failure is indistinguishable from an empty result. -/
theorem eventFQDNs_swallows_errors (st : DBState) (execID : Int)
    (h : st.faults.connFail = true ∨ st.faults.queryFail = true) :
    EventFQDNs st execID = [] ∧ EventFQDNs st execID = EventFQDNs emptyDB execID := by
  have hempty : EventFQDNs emptyDB execID = [] := rfl
  have hnil : EventFQDNs st execID = [] := by
    rcases h with h | h
    · simp [EventFQDNs, h]
    · cases hc : st.faults.connFail <;> simp [EventFQDNs, h, hc]
  exact ⟨hnil, hnil.trans hempty.symm⟩

/-- C10 witness: a store whose connection fails. -/
theorem eventFQDNs_swallows_errors_witness :
    EventFQDNs connFailDB 1 = [] ∧ EventFQDNs connFailDB 1 = EventFQDNs emptyDB 1 :=
  eventFQDNs_swallows_errors connFailDB 1 (Or.inl rfl)
